import Mathlib

/-!
Verification of the web-scraper ingestion pipeline.

This file gives a shallow embedding, in Lean 4, of the parts of the
repository that the frozen claims talk about:

* the Article / TechnicalMetadata / ScrapedMetadata data model
  (src/src/models/article.py, src/src/models/scraped_metadata.py,
  src/src/models/article_metadata.py);
* URL-hash generation in Article.__post_init__;
* the metadata extractor (src/src/consumer/scrapers/extractors.py);
* the static fetcher retry loop (src/src/consumer/bs_scraper.py);
* the fallback orchestration (src/src/consumer/scrapers/scraper_manager.py);
* the persistence upsert (src/src/db/mongoDB.py);
* the priority queue client (src/src/publisher/redis_queue.py,
  src/src/config/settings.py);
* the ingestion loop (src/src/services/consumer.py).

Modelling conventions:

* Python exceptions are modelled with the Except monad over the PyErr
  type; a Python try/except block becomes a match on the Except value.
* Python None becomes Option.none; the dynamic truthiness test applied
  to an optional string (None and the empty string are falsy) is the
  function pyTruthy below.
* Mutable aliasing matters for exactly one object in the claims: the
  class-level default TechnicalMetadata() instance that every Article
  built without an explicit technical_metadata argument shares.  We
  model technical-metadata objects as cells of an explicit heap
  (a list of TechnicalMetadata records) and give each Article the
  address of its cell; address 0 is the shared class-level default.
* External collaborators (hashlib, the network, the wall clock, Redis
  and MongoDB transports) are oracles: function parameters supplying
  their answers.  Transport-level failures of the stores (PyMongoError,
  RedisError on a healthy command) are not modelled; the stores are
  assumed reachable, as the claims assume.
-/

/-- Python exception values that the embedded code can raise. -/
inductive PyErr where
  | attributeError (msg : String)
  | keyError (key : String)
  | typeError (msg : String)
  | exception (msg : String)
deriving Repr, DecidableEq

/-- Message text of an exception, as str(e) would render it. -/
def PyErr.msg : PyErr → String
  | .attributeError m => m
  | .keyError k => k
  | .typeError m => m
  | .exception m => m

/-- Truthiness of an optional string: Python treats None and the empty
string as falsy, every other string as truthy. -/
def pyTruthy : Option String → Bool
  | none => false
  | some s => s ≠ ""

/-- Python `a or b` on optional strings: keep a when truthy, else b. -/
def pyOrS (a b : Option String) : Option String :=
  if pyTruthy a then a else b

/-- Python `s or default` on an optional string, yielding a string. -/
def pyOrDefault (a : Option String) (dflt : String) : String :=
  match a with
  | none => dflt
  | some s => if s = "" then dflt else s

/-! ## Input data model (src/src/models/article_metadata.py)

ArticleMetadata is the WorkItem shape popped from the queue:
id, url, source, category, priority. -/

structure ArticleMetadata where
  id : String
  url : String
  source : String
  category : String
  priority : String
deriving Repr, DecidableEq

/-! ## Scraped metadata (src/src/models/scraped_metadata.py and the
fields that src/src/consumer/scrapers/extractors.py populates)

The extractor imports FacebookMetadata and TwitterMetadata from the
models module, but no file under src defines them; their shapes are
reconstructed from the specification. -/

/-- Modelled from the spec: FacebookMetadata is missing from src (it is
imported by extractors.py but defined nowhere); per the spec the social
block carries per-platform publisher/creator/card identifiers, and the
extractor assigns publisher, page_id and app_id on the facebook side. -/
structure FacebookMetadata where
  publisher : Option String := none
  page_id : Option String := none
  app_id : Option String := none
deriving Repr, DecidableEq

/-- Modelled from the spec: TwitterMetadata is missing from src (it is
imported by extractors.py but defined nowhere); the extractor assigns
publisher, creator and card on the twitter side. -/
structure TwitterMetadata where
  publisher : Option String := none
  creator : Option String := none
  card : Option String := none
deriving Repr, DecidableEq

/-- SocialMediaMetadata holds the two per-platform blocks that the
extractor constructs. -/
structure SocialMediaMetadata where
  facebook : FacebookMetadata := {}
  twitter : TwitterMetadata := {}
deriving Repr, DecidableEq

/-- ScrapedMetadata: the dataclass fields, plus site_name and image,
which extractors.py assigns as dynamic attributes (plain dataclasses
accept new attributes at runtime). -/
structure ScrapedMetadata where
  title : Option String := none
  description : Option String := none
  keywords : Option (List String) := none
  author : Option String := none
  published_date : Option String := none
  modified_date : Option String := none
  images : Option (List String) := none
  canonical_url : Option String := none
  social_media : Option SocialMediaMetadata := none
  site_name : Option String := none
  image : Option String := none
deriving Repr, DecidableEq

/-- ScrapedMetadata.is_valid: `return bool(self.title)` — None and the
empty string are falsy, every other string (whitespace included) is
truthy.  The title is not trimmed. -/
def ScrapedMetadata.is_valid (m : ScrapedMetadata) : Bool :=
  pyTruthy m.title

/-! ## TechnicalMetadata and Article (src/src/models/article.py) -/

/-- TechnicalMetadata dataclass with its field defaults; scraped_date
and scraping_method default to None in the source.  The float
processing_time is abstracted to a Nat supplied by the clock oracle. -/
structure TechnicalMetadata where
  url_hash : String := ""
  scraped_date : Option String := none
  scraping_method : Option String := none
  status : String := "pending"
  error_message : Option String := none
  processing_time : Option Nat := none
  retry_count : Nat := 0
deriving Repr, DecidableEq

/-- Heap of TechnicalMetadata objects.  Cell 0 is the single shared
instance created once by the class-level field default
`technical_metadata: TechnicalMetadata = TechnicalMetadata()`. -/
abbrev TMHeap := List TechnicalMetadata

/-- Initial heap: only the shared class-level default instance exists. -/
def heap0 : TMHeap := [{}]

/-- CPython ≤ 3.10 accepts a dataclass instance as a field default and
stores it once on the class, so every Article constructed without an
explicit technical_metadata argument aliases the same object; tmAddr is
the heap address of the aliased cell.  url_hash is the attribute that
__post_init__ creates on the Article itself (absent until the guard
fires). -/
structure Article where
  id : String
  url : String
  source : String
  category : String
  priority : String
  scraped_metadata : Option ScrapedMetadata := none
  tmAddr : Nat := 0
  url_hash : Option String := none
deriving Repr, DecidableEq

/-- Dereference the technical_metadata cell of an Article. -/
def Article.tm (heap : TMHeap) (a : Article) : TechnicalMetadata :=
  heap.getD a.tmAddr {}

/-- Article construction: dataclass __init__ (technical_metadata left at
the shared default cell 0) followed by __post_init__, which checks
`if not self.technical_metadata.url_hash` and then executes
`self.url_hash = self._generate_url_hash()` — creating a fresh
attribute on the Article instead of writing the aliased cell.
sha256hex stands for hashlib.sha256(url.encode()).hexdigest(). -/
def Article.init (heap : TMHeap) (sha256hex : String → String)
    (id url source category priority : String) : Article :=
  let a : Article :=
    { id := id
      url := url
      source := source
      category := category
      priority := priority
      scraped_metadata := none
      tmAddr := 0
      url_hash := none }
  if (a.tm heap).url_hash = "" then
    { a with url_hash := some (sha256hex a.url) }
  else a

/-- Article.from_metadata: build an Article from the five WorkItem
fields; scraped_metadata and technical_metadata keep their defaults. -/
def Article.from_metadata (heap : TMHeap) (sha256hex : String → String)
    (m : ArticleMetadata) : Article :=
  Article.init heap sha256hex m.id m.url m.source m.category m.priority

/-- Article.mark_success: stores the scraped metadata on the Article and
writes status, date, method, processing time and a cleared error into
the aliased technical_metadata cell.  now is the
datetime.now().isoformat() oracle value. -/
def Article.mark_success (heap : TMHeap) (a : Article)
    (sm : ScrapedMetadata) (method : String) (now : String)
    (processing_time : Nat) : Article × TMHeap :=
  let tm := a.tm heap
  let tm2 : TechnicalMetadata :=
    { tm with
      status := "success"
      scraped_date := some now
      scraping_method := some method
      processing_time := some processing_time
      error_message := none }
  ({ a with scraped_metadata := some sm }, heap.set a.tmAddr tm2)

/-- Article.mark_failed: writes status, method, date, error and an
incremented retry_count into the aliased technical_metadata cell.
The source spells the default method argument "uknown"; callers in the
consumer always pass a method explicitly. -/
def Article.mark_failed (heap : TMHeap) (a : Article)
    (error_message : String) (method : String) (now : String) : TMHeap :=
  let tm := a.tm heap
  heap.set a.tmAddr
    { tm with
      status := "failed"
      scraping_method := some method
      scraped_date := some now
      error_message := some error_message
      retry_count := tm.retry_count + 1 }

/-! ## Parsed documents

A parsed document (a BeautifulSoup object) is modelled by the lookups
the embedded code performs on it:

* titleText — the text of the title tag via get_text(strip=True);
  none when the document has no title tag;
* metas — the meta tags, keyed by the property-or-name attribute the
  extractor searches for, value the content attribute (none when the
  tag carries no content attribute); soup.find returns the first match,
  and the property-before-name preference of the two find calls in
  _get_meta_content is folded into the list order;
* links — the link tags, keyed by rel, value the href attribute;
* timeDatetime — the datetime attribute of the first time tag carrying
  one (soup.find("time", attrs with datetime True)); none when absent;
* authorLinkText — the text of the first a tag with rel author. -/

structure Doc where
  titleText : Option String := none
  metas : List (String × Option String) := []
  links : List (String × Option String) := []
  timeDatetime : Option String := none
  authorLinkText : Option String := none
deriving Repr, DecidableEq

/-- Document with no optional element at all. -/
def emptyDoc : Doc := {}

/-- First meta tag with the given property-or-name key: none when no
such tag, some (its content attribute) otherwise. -/
def Doc.findMeta (d : Doc) (key : String) : Option (Option String) :=
  (d.metas.find? (fun t => t.1 == key)).map Prod.snd

/-- First link tag with the given rel: none when no such tag. -/
def Doc.findLink (d : Doc) (rel : String) : Option (Option String) :=
  (d.links.find? (fun t => t.1 == rel)).map Prod.snd

/-- Python subscript tag[key] on an optional attribute value: raises
KeyError when the attribute is absent. -/
def pyGetItem (v : Option String) (key : String) : Except PyErr String :=
  match v with
  | none => .error (.keyError key)
  | some s => .ok s

/-! ## Content validation (src/src/consumer/scrapers/base_scraper.py)

validate_soup walks the configured required_elements; the only element
it knows is "title", checked by _has_title. -/

namespace ScraperInterface

/-- ScraperInterface._has_title: any of the title tag text, the og:title
meta content, or the meta with name title, is truthy. -/
def has_title (d : Doc) : Bool :=
  pyTruthy d.titleText
    || pyTruthy ((d.findMeta "og:title").getD none)
    || pyTruthy ((d.findMeta "title").getD none)

/-- ScraperInterface.validate_soup: for each configured required
element, only "title" is checked; an empty requirement list validates
every document. -/
def validate_soup (required_elements : List String) (d : Doc) : Bool :=
  required_elements.all (fun e => if e = "title" then has_title d else true)

end ScraperInterface

/-! ## Metadata extraction (src/src/consumer/scrapers/extractors.py)

Each helper is written in the Except monad so that a Python subscript
on a missing attribute would surface as a KeyError; the guards in the
source are what keep every path on Except.ok. -/

namespace MetadataExtractor

/-- MetadataExtractor._get_meta_content: the meta content by property or
name; `tag["content"].strip() if tag and tag.get("content") else None`. -/
def get_meta_content (d : Doc) (property_name : String) :
    Except PyErr (Option String) := do
  match d.findMeta property_name with
  | none => pure none
  | some content =>
    if pyTruthy content then do
      let c ← pyGetItem content "content"
      pure (some c.trim)
    else pure none

/-- MetadataExtractor._get_first_meta_content: first truthy meta content
among the given names. -/
def get_first_meta_content (d : Doc) : List String → Except PyErr (Option String)
  | [] => pure none
  | n :: ns => do
    let content ← get_meta_content d n
    if pyTruthy content then pure content
    else get_first_meta_content d ns

/-- MetadataExtractor._get_tag_text for the title tag:
`t.get_text(strip=True) if t else None`. -/
def get_title_text (d : Doc) : Option String :=
  d.titleText

/-- MetadataExtractor._get_tag_text for the a tag with rel author. -/
def get_author_link_text (d : Doc) : Option String :=
  d.authorLinkText

/-- MetadataExtractor._get_tag_attr for the time tag and its datetime
attribute: `t[attr].strip() if t and t.get(attr) else None`. -/
def get_time_datetime (d : Doc) : Except PyErr (Option String) := do
  match d.timeDatetime with
  | none => pure none
  | some v =>
    if pyTruthy (some v) then do
      let x ← pyGetItem (some v) "datetime"
      pure (some x.trim)
    else pure none

/-- MetadataExtractor._get_link_href:
`tag["href"].strip() if tag and tag.get("href") else None`. -/
def get_link_href (d : Doc) (rel : String) : Except PyErr (Option String) := do
  match d.findLink rel with
  | none => pure none
  | some href =>
    if pyTruthy href then do
      let h ← pyGetItem href "href"
      pure (some h.trim)
    else pure none

/-- MetadataExtractor._extract_title: title tag text, else og:title,
else twitter:title (Python `or` short-circuits on a truthy value). -/
def extract_title (d : Doc) : Except PyErr (Option String) := do
  if pyTruthy (get_title_text d) then pure (get_title_text d)
  else get_first_meta_content d ["og:title", "twitter:title"]

/-- MetadataExtractor._extract_description. -/
def extract_description (d : Doc) : Except PyErr (Option String) :=
  get_first_meta_content d ["description", "og:description", "twitter:description"]

/-- MetadataExtractor._extract_keywords: split the keywords meta on
commas and strip each part; an absent or empty value gives []. -/
def extract_keywords (d : Doc) : Except PyErr (List String) := do
  let keywords_str ← get_meta_content d "keywords"
  match keywords_str with
  | none => pure []
  | some s => if s = "" then pure [] else pure ((s.splitOn ",").map String.trim)

/-- MetadataExtractor._extract_author: author meta, else article:author
meta, else the a tag with rel author. -/
def extract_author (d : Doc) : Except PyErr (Option String) := do
  let a ← get_meta_content d "author"
  if pyTruthy a then pure a
  else do
    let b ← get_meta_content d "article:author"
    if pyTruthy b then pure b
    else pure (get_author_link_text d)

/-- MetadataExtractor._extract_publisher. -/
def extract_publisher (d : Doc) : Except PyErr (Option String) :=
  get_first_meta_content d ["article:publisher", "og:site_name", "twitter:site"]

/-- MetadataExtractor._extract_publish_date. -/
def extract_publish_date (d : Doc) : Except PyErr (Option String) := do
  let a ← get_first_meta_content d ["article:published_time", "publish_date", "pubdate"]
  if pyTruthy a then pure a else get_time_datetime d

/-- MetadataExtractor._extract_modified_date. -/
def extract_modified_date (d : Doc) : Except PyErr (Option String) :=
  get_first_meta_content d ["article:modified_time", "last-modified", "updated_time"]

/-- MetadataExtractor._extract_image. -/
def extract_image (d : Doc) : Except PyErr (Option String) := do
  let a ← get_first_meta_content d ["og:image", "twitter:image", "image"]
  if pyTruthy a then pure a else get_link_href d "image_src"

/-- MetadataExtractor._extract_canonical_url. -/
def extract_canonical_url (d : Doc) : Except PyErr (Option String) := do
  let a ← get_link_href d "canonical"
  if pyTruthy a then pure a else get_meta_content d "og:url"

/-- MetadataExtractor.extract: build the ScrapedMetadata record field by
field, in source order. -/
def extract (d : Doc) : Except PyErr ScrapedMetadata := do
  let title ← extract_title d
  let description ← extract_description d
  let keywords ← extract_keywords d
  let author ← extract_author d
  let site_name ← get_first_meta_content d ["og:site_name"]
  let published_date ← extract_publish_date d
  let modified_date ← extract_modified_date d
  let image ← extract_image d
  let canonical_url ← extract_canonical_url d
  let fb_publisher ← extract_publisher d
  let fb_page_id ← get_meta_content d "fb:pages"
  let fb_app_id ← get_meta_content d "fb:app_id"
  let tw_publisher ← get_meta_content d "twitter:site"
  let tw_creator ← get_meta_content d "twitter:creator"
  let tw_card ← get_meta_content d "twitter:card"
  pure
    { title := title
      description := description
      keywords := some keywords
      author := author
      published_date := published_date
      modified_date := modified_date
      images := none
      canonical_url := canonical_url
      social_media := some
        { facebook :=
            { publisher := fb_publisher
              page_id := fb_page_id
              app_id := fb_app_id }
          twitter :=
            { publisher := tw_publisher
              creator := tw_creator
              card := tw_card } }
      site_name := site_name
      image := image }

end MetadataExtractor

/-! ## Static fetcher retry loop (src/src/consumer/bs_scraper.py)

The network is an oracle mapping the attempt index to what
session.get / raise_for_status / parsing produced on that attempt.
RequestsConfig carries the defaults of src/src/config/settings.py. -/

structure RequestsConfig where
  timeout : Nat := 10
  max_retries : Nat := 3
  retry_delay : Nat := 2
deriving Repr, DecidableEq

/-- Outcome of one network attempt, as the except clauses of
BeautifulSoupScraper.scrape distinguish them. -/
inductive ReqOutcome where
  | success (doc : Doc)
  | timeout
  | httpError (code : Nat) (msg : String)
  | connectionError (msg : String)
  | requestException (msg : String)
  | unexpectedError (msg : String)
deriving Repr, DecidableEq

/-- Observable trace of one BeautifulSoupScraper.scrape call: how many
attempts ran, which sleeps were performed (in order), and the returned
(soup, error) pair. -/
structure ScrapeTrace where
  attempts : Nat
  delays : List Nat
  doc : Option Doc
  error : Option String
deriving Repr, DecidableEq

namespace BeautifulSoupScraper

/-- Body of the `for attempt in range(max_retries)` loop.  The branches
follow the source, in order: a successful GET is parsed and validated
(a validation failure returns immediately, flagging the need for the
rendering fetcher); a Timeout sleeps and retries only when
`attempt == max_retries - 1` and otherwise returns at once (this is the
source's condition, inverted relative to the ConnectionError branch
below and to its own backoff comment); an HTTPError and a
RequestException return at once; a ConnectionError sleeps
retry_delay ^ attempt and retries while attempts remain; falling off
the loop returns the max-retries failure. -/
def scrapeGo (cfg : RequestsConfig) (validate : Doc → Bool)
    (oracle : Nat → ReqOutcome) : Nat → Nat → List Nat → ScrapeTrace
  | attempt, 0, delays =>
    { attempts := attempt
      delays := delays.reverse
      doc := none
      error := some "Max retries exceeded" }
  | attempt, fuel + 1, delays =>
    match oracle attempt with
    | .success doc =>
      if validate doc then
        { attempts := attempt + 1
          delays := delays.reverse
          doc := some doc
          error := none }
      else
        { attempts := attempt + 1
          delays := delays.reverse
          doc := none
          error := some "Validation failed: Required elements not found, may need Selenium" }
    | .timeout =>
      if attempt = cfg.max_retries - 1 then
        scrapeGo cfg validate oracle (attempt + 1) fuel
          (cfg.retry_delay ^ attempt :: delays)
      else
        { attempts := attempt + 1
          delays := delays.reverse
          doc := none
          error := some ("Timeout after " ++ toString cfg.timeout ++ "s") }
    | .httpError code msg =>
      { attempts := attempt + 1
        delays := delays.reverse
        doc := none
        error := some ("HTTP error: " ++ toString code ++ ": " ++ msg) }
    | .connectionError msg =>
      if attempt < cfg.max_retries - 1 then
        scrapeGo cfg validate oracle (attempt + 1) fuel
          (cfg.retry_delay ^ attempt :: delays)
      else
        { attempts := attempt + 1
          delays := delays.reverse
          doc := none
          error := some ("Connection error: " ++ msg) }
    | .requestException msg =>
      { attempts := attempt + 1
        delays := delays.reverse
        doc := none
        error := some ("Request exception: " ++ msg) }
    | .unexpectedError msg =>
      { attempts := attempt + 1
        delays := delays.reverse
        doc := none
        error := some ("Unexpected error: " ++ msg) }

/-- BeautifulSoupScraper.scrape: run the loop from attempt 0 with
max_retries iterations available. -/
def scrape (cfg : RequestsConfig) (validate : Doc → Bool)
    (oracle : Nat → ReqOutcome) : ScrapeTrace :=
  scrapeGo cfg validate oracle 0 cfg.max_retries []

end BeautifulSoupScraper

/-! ## Fallback orchestration (src/src/consumer/scrapers/scraper_manager.py)

The inner fetchers are summarized by the (soup, error) pair their
scrape call returned; validate is the content-validation predicate
(the drafts disagree on the settings shape that reaches validate_soup,
so the predicate is passed in directly). -/

namespace ScraperManager

/-- ScraperManager._try_beautifulsoup: no soup propagates the fetch
error; a soup failing validate_soup fails with the validation message;
extraction errors are caught by the blanket except; extracted content
failing is_valid fails with the no-title message; otherwise success.
The method tag is always the string beautifulsoup. -/
def try_beautifulsoup (validate : Doc → Bool)
    (bsResult : Option Doc × Option String) :
    Option ScrapedMetadata × String × Option String :=
  match bsResult with
  | (none, error) => (none, "beautifulsoup", error)
  | (some soup, _) =>
    if ¬ validate soup then
      (none, "beautifulsoup", some "Content validation failed")
    else
      match MetadataExtractor.extract soup with
      | .error e => (none, "beautifulsoup", some ("BeautifulSoup error: " ++ e.msg))
      | .ok content =>
        if ¬ content.is_valid then
          (none, "beautifulsoup", some "Extracted content is invalid (no title found)")
        else
          (some content, "beautifulsoup", none)

/-- ScraperManager._try_selenium: a missing selenium scraper is the
disabled failure; otherwise the selenium fetch result is extracted and
checked by is_valid (no second validate_soup pass on this path).  The
method tag is always the string selenium. -/
def try_selenium (hasScraper : Bool)
    (selResult : Option Doc × Option String) :
    Option ScrapedMetadata × String × Option String :=
  if ¬ hasScraper then (none, "selenium", some "Selenium is disabled")
  else
    match selResult with
    | (none, error) => (none, "selenium", error)
    | (some soup, _) =>
      match MetadataExtractor.extract soup with
      | .error e => (none, "selenium", some ("Selenium error: " ++ e.msg))
      | .ok content =>
        if ¬ content.is_valid then
          (none, "selenium", some "Selenium: Extracted content is invalid")
        else
          (some content, "selenium", none)

/-- ScraperManager.scrape_article: try the static path; when it yields
no content and the selenium fallback is enabled, return the selenium
path's result instead.  ScraperManager.__init__ creates the selenium
scraper exactly when enabled_fallback is set, so the scraper's
presence equals enabled_fallback. -/
def scrape_article (enabled_fallback : Bool) (validate : Doc → Bool)
    (bsResult selResult : Option Doc × Option String) :
    Option ScrapedMetadata × String × Option String :=
  let r := try_beautifulsoup validate bsResult
  if r.1.isNone && enabled_fallback then try_selenium enabled_fallback selResult
  else r

end ScraperManager

/-! ## Persistence (src/src/db/mongoDB.py)

The collection is a list of stored article documents; the unique index
on technical_metadata.url_hash makes insert_one report a duplicate-key
conflict exactly when a document with the same hash is present. -/

/-- Article.to_dict: the five original fields, the scraped_metadata key
when the value is not None, and the technical_metadata snapshot (a
dataclass instance is always truthy, so that key is always present). -/
structure StoredDoc where
  id : String
  url : String
  source : String
  category : String
  priority : String
  scraped_metadata : Option ScrapedMetadata := none
  technical_metadata : TechnicalMetadata := {}
deriving Repr, DecidableEq

abbrev Store := List StoredDoc

/-- Article.to_dict reads the aliased technical_metadata cell at call
time; asdict deep-copies, so the stored document is a snapshot. -/
def Article.to_dict (heap : TMHeap) (a : Article) : StoredDoc :=
  { id := a.id
    url := a.url
    source := a.source
    category := a.category
    priority := a.priority
    scraped_metadata := a.scraped_metadata
    technical_metadata := a.tm heap }

/-- Article.from_dict: the source builds a ScrapedMetadata from the
flat content fields but the function body ends without a return
statement, so every call evaluates to None.  (A stored document's keys
are not in the content_fields set, so no TypeError path is reached.) -/
def Article.from_dict (_d : StoredDoc) : Option Article :=
  none

namespace MongoDB

/-- collection.insert_one under the unique url_hash index: none models
DuplicateKeyError, some the extended collection. -/
def insert_one (store : Store) (d : StoredDoc) : Option Store :=
  if store.any (fun x => x.technical_metadata.url_hash == d.technical_metadata.url_hash)
  then none
  else some (store ++ [d])

/-- collection.replace_one filtered on technical_metadata.url_hash:
replaces the first matching document, leaves the rest unchanged. -/
def replace_one (store : Store) (url_hash : String) (d : StoredDoc) : Store :=
  match store with
  | [] => []
  | x :: xs =>
    if x.technical_metadata.url_hash = url_hash then d :: xs
    else x :: replace_one xs url_hash d

/-- MongoDB.save: try insert_one; on DuplicateKeyError fall back to
_update_duplicate, which replaces the record keyed by the article's
current technical_metadata.url_hash.  Both branches of
_update_duplicate return True. -/
def save (store : Store) (heap : TMHeap) (a : Article) : Bool × Store :=
  let article_dict := a.to_dict heap
  match insert_one store article_dict with
  | some s => (true, s)
  | none => (true, replace_one store (a.tm heap).url_hash article_dict)

/-- MongoDB.find_by_url_hash: locate the document by hash and rebuild
an Article from it with Article.from_dict (which yields None). -/
def find_by_url_hash (store : Store) (url_hash : String) : Option Article :=
  match store.find? (fun d => d.technical_metadata.url_hash == url_hash) with
  | some doc => Article.from_dict doc
  | none => none

end MongoDB

/-! ## Priority queue client (src/src/publisher/redis_queue.py and
src/src/config/settings.py)

The three lanes are Redis lists: lpush inserts on the left, rpop and
brpop remove from the right.  Queue entries are the decoded WorkItem
payloads (JSON encoding and decoding are assumed inverse; the decode
failure path is not exercised by the claims). -/

structure RedisConfig where
  queue_high : String := "articles:queue:high"
  queue_medium : String := "articles:queue:medium"
  queue_low : String := "articles:queue:low"
deriving Repr, DecidableEq

/-- RedisConfig.get_queue_name: `priority_map.get(priority.lower(),
self.queue_low)`.  A None priority raises AttributeError on .lower();
an unknown string falls back, silently, to the low queue. -/
def RedisConfig.get_queue_name (cfg : RedisConfig) (priority : Option String) :
    Except PyErr String :=
  match priority with
  | none => .error (.attributeError "NoneType object has no attribute lower")
  | some p =>
    let pl := p.toLower
    .ok (if pl = "high" then cfg.queue_high
         else if pl = "medium" then cfg.queue_medium
         else if pl = "low" then cfg.queue_low
         else cfg.queue_low)

/-- State of the three lanes. -/
structure Lanes where
  high : List ArticleMetadata := []
  medium : List ArticleMetadata := []
  low : List ArticleMetadata := []
deriving Repr, DecidableEq

/-- rpop on one Redis list: remove and return the rightmost element. -/
def rpopList (l : List ArticleMetadata) : Option ArticleMetadata × List ArticleMetadata :=
  (l.getLast?, l.dropLast)

/-- Select the lane a queue name denotes and rpop it; an unknown key is
an empty Redis list. -/
def Lanes.rpop_named (cfg : RedisConfig) (st : Lanes) (queue_name : String) :
    Option ArticleMetadata × Lanes :=
  if queue_name = cfg.queue_high then
    let (x, q) := rpopList st.high; (x, { st with high := q })
  else if queue_name = cfg.queue_medium then
    let (x, q) := rpopList st.medium; (x, { st with medium := q })
  else if queue_name = cfg.queue_low then
    let (x, q) := rpopList st.low; (x, { st with low := q })
  else (none, st)

namespace RedisManager

/-- RedisManager.pop: resolve the queue name from the priority, then
pop that single queue.  The try block catches RedisError and
JSONDecodeError only, so the AttributeError that get_queue_name raises
for a None priority propagates to the caller.  The timeout argument
only chooses brpop over rpop; both remove from the right, so it does
not appear in the model. -/
def pop (cfg : RedisConfig) (st : Lanes) (priority : Option String) :
    Except PyErr (Option ArticleMetadata × Lanes) := do
  let queue_name ← cfg.get_queue_name priority
  pure (st.rpop_named cfg queue_name)

/-- RedisManager.push: the body reads self.config, an attribute that
__init__ never assigns (it sets self.settings), so the first statement
raises AttributeError; the blanket `except Exception` swallows it and
returns False, leaving every lane unchanged. -/
def push (_cfg : RedisConfig) (st : Lanes) (_m : ArticleMetadata) : Bool × Lanes :=
  let body : Except PyErr (Bool × Lanes) :=
    .error (.attributeError "RedisManager object has no attribute config")
  match body with
  | .ok r => r
  | .error _ => (false, st)

end RedisManager

/-! ## Ingestion loop (src/src/services/consumer.py) -/

/-- Oracles feeding one Consumer._process_article call: the hash
function, the validation predicate, the fallback switch, the two fetch
results for the article's URL, and the clock readings. -/
structure ProcessCtx where
  sha256hex : String → String
  validate : Doc → Bool
  enabled_fallback : Bool
  bsResult : Option Doc × Option String
  selResult : Option Doc × Option String
  now : String
  processing_time : Nat

namespace Consumer

/-- Consumer._process_article, acting on the store and the heap: build
the Article from the popped payload, look up an existing record by the
article's technical url_hash, skip when that record has status success,
otherwise scrape with fallback, mark the article accordingly and save
it. -/
def process_article (ctx : ProcessCtx) (store : Store) (heap : TMHeap)
    (article_data : ArticleMetadata) : Store × TMHeap :=
  let article := Article.from_metadata heap ctx.sha256hex article_data
  let existing := MongoDB.find_by_url_hash store (article.tm heap).url_hash
  let skip :=
    match existing with
    | some ex => (ex.tm heap).status == "success"
    | none => false
  if skip then (store, heap)
  else
    let (content, method, error) :=
      ScraperManager.scrape_article ctx.enabled_fallback ctx.validate
        ctx.bsResult ctx.selResult
    match content with
    | some sm =>
      let (a2, heap2) := Article.mark_success heap article sm method ctx.now
        ctx.processing_time
      ((MongoDB.save store heap2 a2).2, heap2)
    | none =>
      let heap2 := Article.mark_failed heap article
        (pyOrDefault error "Unknown error") method ctx.now
      ((MongoDB.save store heap2 article).2, heap2)

/-- Consumer.consume_and_process: pop with no priority argument and a
zero timeout, return False on an empty pop, otherwise process the
payload.  The AttributeError raised inside pop for the None priority
is not handled here either. -/
def consume_and_process (cfg : RedisConfig) (ctx : ProcessCtx)
    (lanes : Lanes) (store : Store) (heap : TMHeap) :
    Except PyErr (Bool × Lanes × Store × TMHeap) := do
  let (article_data, lanes2) ← RedisManager.pop cfg lanes none
  match article_data with
  | none => pure (false, lanes2, store, heap)
  | some m =>
    let (s2, h2) := process_article ctx store heap m
    pure (true, lanes2, s2, h2)

/-- Counters of Consumer.stats that the claims mention.  The
by_priority and by_method sub-dictionaries are not modelled. -/
structure Stats where
  total_processed : Nat := 0
  success : Nat := 0
  failed : Nat := 0
deriving Repr, DecidableEq

/-- What processing one dequeued item can amount to, seen from the
try/except in _process_article: the scrape succeeds and the article is
stored, the scrape fails and the failed article is stored, the item is
skipped as already successful, or some statement raises an unexpected
exception. -/
inductive ItemOutcome where
  | succeeds
  | scrapeFails
  | skips
  | raises (e : PyErr)
deriving Repr, DecidableEq

/-- Stats effect of the try block of _process_article: the success and
failed counters move with the scrape outcome, total_processed counts
every item that completes the block, and an unexpected exception
escapes the block. -/
def process_article_body (s : Stats) : ItemOutcome → Except PyErr Stats
  | .succeeds =>
    .ok { s with
          success := s.success + 1
          total_processed := s.total_processed + 1 }
  | .scrapeFails =>
    .ok { s with
          failed := s.failed + 1
          total_processed := s.total_processed + 1 }
  | .skips => .ok { s with total_processed := s.total_processed + 1 }
  | .raises e => .error e

/-- The `except Exception` clause around the body of _process_article:
a raised exception is logged and counted as one more failure; nothing
propagates. -/
def process_article_guarded (s : Stats) (o : ItemOutcome) : Stats :=
  match process_article_body s o with
  | .ok s2 => s2
  | .error _ => { s with failed := s.failed + 1 }

/-- The batch loop of Consumer.run: up to batch_size consecutive
consume_and_process calls, stopping early when the queue is empty; the
Bool records whether anything was processed this cycle.  The dequeue
itself is modelled as yielding the queued items in order (the lane
selection defect of RedisManager.pop is settled separately). -/
def run_batch : Nat → List ItemOutcome → Stats → Bool →
    Except PyErr (Stats × List ItemOutcome × Bool)
  | 0, q, s, processed => .ok (s, q, processed)
  | _ + 1, [], s, processed => .ok (s, [], processed)
  | n + 1, o :: q, s, _ => run_batch n q (process_article_guarded s o) true

end Consumer

/-! ## Concrete fixtures used by the theorems -/

/-- High-priority work item. -/
def wHigh : ArticleMetadata :=
  { id := "h1", url := "https://example.com/h", source := "src", category := "cat", priority := "high" }

/-- Medium-priority work item. -/
def wMedium : ArticleMetadata :=
  { id := "m1", url := "https://example.com/m", source := "src", category := "cat", priority := "medium" }

/-- Low-priority work item. -/
def wLow : ArticleMetadata :=
  { id := "l1", url := "https://example.com/l", source := "src", category := "cat", priority := "low" }

/-- The end-to-end scenario's work item. -/
def wExample : ArticleMetadata :=
  { id := "a1", url := "https://example.com", source := "seed", category := "news", priority := "high" }

/-- Document containing exactly a title tag with text Example. -/
def docExample : Doc := { titleText := some "Example" }

/-- What MetadataExtractor.extract yields on docExample. -/
def metaExample : ScrapedMetadata :=
  { title := some "Example", keywords := some [], social_media := some {} }

/-- Oracles for the end-to-end scenario: the static fetch returned the
Example document; validation requires a title; the fallback is enabled
but unused. -/
def ctxExample : ProcessCtx :=
  { sha256hex := fun s => s
    validate := ScraperInterface.validate_soup ["title"]
    enabled_fallback := true
    bsResult := (some docExample, none)
    selResult := (none, some "selenium oracle unused")
    now := "2026-10-12T00:00:00"
    processing_time := 1 }

/-- Network oracle on which every attempt times out. -/
def allTimeouts : Nat → ReqOutcome := fun _ => .timeout

/-! ## Claim C1 -/

/-- Claim C1 (code_bug evaluation): for any hash oracle, an Article
built from a WorkItem leaves technical_metadata.url_hash equal to the
empty string — the digest Article.__post_init__ computes lands in a
fresh url_hash attribute on the Article itself — so two WorkItems with
different URLs share the empty technical url_hash instead of getting
distinct content addresses, and mark_failed never fills it in either. -/
theorem claim_C1_url_hash_never_reaches_technical_metadata
    (sha256hex : String → String) (w1 w2 : ArticleMetadata) :
    let a1 := Article.from_metadata heap0 sha256hex w1
    let a2 := Article.from_metadata heap0 sha256hex w2
    (a1.tm heap0).url_hash = ""
    ∧ (a2.tm heap0).url_hash = ""
    ∧ a1.url_hash = some (sha256hex w1.url)
    ∧ a2.url_hash = some (sha256hex w2.url)
    ∧ (a1.tm (Article.mark_failed heap0 a1 "err" "beautifulsoup" "t")).url_hash = "" := by
  exact ⟨rfl, rfl, rfl, rfl, rfl⟩

/-! ## Claim C3 -/

/-- Claim C3 (code_bug evaluation): with one item waiting in each lane,
the no-lane dequeue that the ingestion loop performs raises
AttributeError (get_queue_name calls .lower() on None) instead of
draining high before medium before low; and RedisManager.push cannot
enqueue at all (its body reads the nonexistent self.config attribute
and the blanket except turns that into False). -/
theorem claim_C3_no_lane_pop_raises :
    RedisManager.pop {} { high := [wHigh], medium := [wMedium], low := [wLow] } none
      = Except.error (PyErr.attributeError "NoneType object has no attribute lower")
    ∧ RedisManager.push {} {} wHigh = (false, {}) := by
  exact ⟨rfl, rfl⟩

/-! ## Claim C4 -/

/-- Claim C4 (code_bug evaluation): with the default configuration
(timeout 10, max_retries 3, retry_delay 2) and every attempt timing
out, BeautifulSoupScraper.scrape returns the timeout failure after
exactly one attempt and performs no backoff sleep at all — the Timeout
branch only retries when attempt equals max_retries - 1, so the first
timeout returns immediately. -/
theorem claim_C4_timeout_returns_after_one_attempt :
    BeautifulSoupScraper.scrape {} (ScraperInterface.validate_soup ["title"]) allTimeouts
      = { attempts := 1, delays := [], doc := none, error := some "Timeout after 10s" } := by
  rfl

/-! ## Claim C10 -/

/-- Claim C10: every Article built without an explicit
technical_metadata argument aliases the one class-level default
TechnicalMetadata instance (heap cell 0), so marking one such Article
failed is observed through every other: status flips to failed, the
error message appears, and retry_count accumulates across distinct
Articles (two failures on two different Articles leave the shared
counter at 2). -/
theorem claim_C10_shared_default_technical_metadata
    (sha256hex : String → String) (m1 m2 : ArticleMetadata)
    (e1 e2 method now1 now2 : String) :
    let a := Article.from_metadata heap0 sha256hex m1
    let b := Article.from_metadata heap0 sha256hex m2
    let h1 := Article.mark_failed heap0 a e1 method now1
    let h2 := Article.mark_failed h1 b e2 method now2
    a.tmAddr = 0 ∧ b.tmAddr = 0
    ∧ (b.tm heap0).status = "pending" ∧ (b.tm heap0).retry_count = 0
    ∧ (b.tm h1).status = "failed"
    ∧ (b.tm h1).error_message = some e1
    ∧ (b.tm h1).retry_count = 1
    ∧ (a.tm h2).retry_count = 2 := by
  exact ⟨rfl, rfl, rfl, rfl, rfl, rfl, rfl, rfl⟩

/-! ## Claim C2 -/

/-- replace_one on a collection whose prefix has no matching document
replaces the single matching document appended at the end. -/
theorem replace_one_append_of_fresh (s : Store) (h : String) (d1 d2 : StoredDoc)
    (hs : ∀ x ∈ s, x.technical_metadata.url_hash ≠ h)
    (hd1 : d1.technical_metadata.url_hash = h) :
    MongoDB.replace_one (s ++ [d1]) h d2 = s ++ [d2] := by
  induction s with
  | nil => simp [MongoDB.replace_one, hd1]
  | cons x xs ih =>
    have hx : x.technical_metadata.url_hash ≠ h := hs x (by simp)
    simp only [List.cons_append, MongoDB.replace_one, if_neg hx]
    exact congrArg (List.cons x) (ih (fun y hy => hs y (by simp [hy])))

/-- Claim C2: upsert is idempotent in the two-article sense: starting
from a collection holding no document with the shared url_hash, saving
the first article and then the second leaves the collection extended by
exactly the second article's document — the first write inserts, the
second hits the unique-index conflict and replaces in full — and the
documents carrying that url_hash are exactly that one document. -/
theorem claim_C2_upsert_idempotent (store : Store) (heap1 heap2 : TMHeap)
    (a1 a2 : Article)
    (hfresh : ∀ x ∈ store, x.technical_metadata.url_hash ≠ (a1.tm heap1).url_hash)
    (hsame : (a2.tm heap2).url_hash = (a1.tm heap1).url_hash) :
    (MongoDB.save ((MongoDB.save store heap1 a1).2) heap2 a2).2
      = store ++ [a2.to_dict heap2]
    ∧ ((MongoDB.save ((MongoDB.save store heap1 a1).2) heap2 a2).2.filter
        (fun d => d.technical_metadata.url_hash == (a2.tm heap2).url_hash))
      = [a2.to_dict heap2] := by
  have hdict1 : (a1.to_dict heap1).technical_metadata = a1.tm heap1 := rfl
  have hdict2 : (a2.to_dict heap2).technical_metadata = a2.tm heap2 := rfl
  have hany1 : store.any
      (fun x => x.technical_metadata.url_hash == (a1.to_dict heap1).technical_metadata.url_hash)
      = false := by
    rw [List.any_eq_false]
    intro x hx
    simpa [hdict1] using hfresh x hx
  have hsave1 : (MongoDB.save store heap1 a1).2 = store ++ [a1.to_dict heap1] := by
    simp [MongoDB.save, MongoDB.insert_one, hany1]
  have hany2 : (store ++ [a1.to_dict heap1]).any
      (fun x => x.technical_metadata.url_hash == (a2.to_dict heap2).technical_metadata.url_hash)
      = true := by
    rw [List.any_eq_true]
    refine ⟨a1.to_dict heap1, by simp, ?_⟩
    rw [hdict1, hdict2, hsame]
    simp
  have hsave2 : (MongoDB.save (store ++ [a1.to_dict heap1]) heap2 a2).2
      = store ++ [a2.to_dict heap2] := by
    simp only [MongoDB.save, MongoDB.insert_one, hany2, if_pos]
    exact replace_one_append_of_fresh store ((a2.tm heap2).url_hash)
      (a1.to_dict heap1) (a2.to_dict heap2)
      (fun x hx => by rw [hsame]; exact hfresh x hx)
      (by rw [hdict1, hsame])
  refine ⟨by rw [hsave1, hsave2], ?_⟩
  rw [hsave1, hsave2, List.filter_append]
  have hstore : store.filter
      (fun d => d.technical_metadata.url_hash == (a2.tm heap2).url_hash) = [] := by
    rw [List.filter_eq_nil_iff]
    intro x hx
    simp [hsame]
    exact fun hcontra => (hfresh x hx) hcontra
  rw [hstore]
  simp [hdict2]

/-- Fixture heap for the C2 witness: one technical-metadata cell whose
url_hash is the string k. -/
def heapK : TMHeap := [{ url_hash := "k" }]

/-- First witness article, pointing at the heapK cell. -/
def articleK1 : Article :=
  { id := "1", url := "https://example.com/1", source := "s", category := "c", priority := "high" }

/-- Second witness article with the same technical-metadata cell. -/
def articleK2 : Article :=
  { id := "2", url := "https://example.com/2", source := "s", category := "c", priority := "low" }

/-- Witness for claim C2: saving articleK1 then articleK2 into the
empty collection leaves exactly the second article's document. -/
theorem claim_C2_upsert_idempotent_witness :
    (MongoDB.save ((MongoDB.save [] heapK articleK1).2) heapK articleK2).2
      = [articleK2.to_dict heapK]
    ∧ ((MongoDB.save ((MongoDB.save [] heapK articleK1).2) heapK articleK2).2.filter
        (fun d => d.technical_metadata.url_hash == (articleK2.tm heapK).url_hash))
      = [articleK2.to_dict heapK] := by
  have := claim_C2_upsert_idempotent [] heapK heapK articleK1 articleK2
    (by intro x hx; cases hx) rfl
  simpa using this

/-! ## Claim C5 -/

/-- The selenium path always reports the selenium method tag, on
success and on failure alike. -/
theorem try_selenium_reports_selenium (hasScraper : Bool)
    (selResult : Option Doc × Option String) :
    (ScraperManager.try_selenium hasScraper selResult).2.1 = "selenium" := by
  unfold ScraperManager.try_selenium
  repeat' split
  all_goals rfl

/-- Claim C5: with the static fetch returning a document that fails
content validation, the overall outcome is the selenium path's result
when the fallback is enabled (so its methodUsed is selenium, success or
not), and the static validation failure itself, tagged beautifulsoup,
when the fallback is disabled; and whenever the static path succeeds
its result is returned unchanged, fallback or not. -/
theorem claim_C5_fallback_deterministic (validate : Doc → Bool) (d : Doc)
    (e : Option String) (selResult : Option Doc × Option String)
    (hval : validate d = false) :
    (ScraperManager.scrape_article true validate (some d, e) selResult
        = ScraperManager.try_selenium true selResult
      ∧ (ScraperManager.scrape_article true validate (some d, e) selResult).2.1
        = "selenium")
    ∧ ScraperManager.scrape_article false validate (some d, e) selResult
        = (none, "beautifulsoup", some "Content validation failed")
    ∧ ∀ (enabled : Bool) (validate2 : Doc → Bool)
        (bsResult selResult2 : Option Doc × Option String)
        (c : ScrapedMetadata) (m : String) (err : Option String),
        ScraperManager.try_beautifulsoup validate2 bsResult = (some c, m, err) →
        ScraperManager.scrape_article enabled validate2 bsResult selResult2
          = (some c, m, err) := by
  have hbs : ScraperManager.try_beautifulsoup validate (some d, e)
      = (none, "beautifulsoup", some "Content validation failed") := by
    unfold ScraperManager.try_beautifulsoup
    simp [hval]
  have h1 : ScraperManager.scrape_article true validate (some d, e) selResult
      = ScraperManager.try_selenium true selResult := by
    unfold ScraperManager.scrape_article
    rw [hbs]
    simp
  refine ⟨⟨h1, by rw [h1]; exact try_selenium_reports_selenium true selResult⟩, ?_, ?_⟩
  · unfold ScraperManager.scrape_article
    rw [hbs]
    simp
  · intro enabled validate2 bsResult selResult2 c m err hb
    unfold ScraperManager.scrape_article
    rw [hb]
    simp

/-- Witness for claim C5: a concrete document rejected by a concrete
validation predicate, with the fallback enabled, hands the outcome to
the selenium path. -/
theorem claim_C5_fallback_deterministic_witness :
    ScraperManager.scrape_article true (fun _ => false) (some emptyDoc, none)
        (none, some "render error")
      = ScraperManager.try_selenium true (none, some "render error") :=
  (claim_C5_fallback_deterministic (fun _ => false) emptyDoc none
    (none, some "render error") rfl).1.1

/-! ## Claim C7 -/

/-- A metadata record returned as the static path's success satisfies
is_valid: the failure return right before the success return filters
invalid records out. -/
theorem try_beautifulsoup_success_is_valid (validate : Doc → Bool)
    (bsResult : Option Doc × Option String) (c : ScrapedMetadata)
    (m : String) (e : Option String)
    (h : ScraperManager.try_beautifulsoup validate bsResult = (some c, m, e)) :
    c.is_valid = true := by
  unfold ScraperManager.try_beautifulsoup at h
  split at h
  · simp at h
  · split at h
    · simp at h
    · split at h
      · simp at h
      · split at h
        · simp at h
        · rename_i hvalid
          simp at h hvalid
          rw [← h.1]
          exact hvalid

/-- A metadata record returned as the selenium path's success satisfies
is_valid for the same reason. -/
theorem try_selenium_success_is_valid (hasScraper : Bool)
    (selResult : Option Doc × Option String) (c : ScrapedMetadata)
    (m : String) (e : Option String)
    (h : ScraperManager.try_selenium hasScraper selResult = (some c, m, e)) :
    c.is_valid = true := by
  unfold ScraperManager.try_selenium at h
  split at h
  · simp at h
  · split at h
    · simp at h
    · split at h
      · simp at h
      · split at h
        · simp at h
        · rename_i hvalid
          simp at h hvalid
          rw [← h.1]
          exact hvalid

/-- Claim C7 counterexample: a record whose title is a single space is
judged valid by is_valid even though the title trims to the empty
string — the claimed equivalence with emptiness after trimming fails. -/
theorem claim_C7_counterexample :
    ScrapedMetadata.is_valid { title := some " " } = true
      ∧ " ".toList.all Char.isWhitespace = true := by
  exact ⟨rfl, by decide⟩

/-- Claim C7 as amended: is_valid is false exactly when the title is
absent or the empty string (no trimming is applied), and a record that
is invalid by this predicate is never returned as a successful scrape
outcome by the fallback orchestration. -/
theorem claim_C7_is_valid_untrimmed :
    (∀ m : ScrapedMetadata, m.is_valid = false ↔ (m.title = none ∨ m.title = some ""))
    ∧ ∀ (enabled : Bool) (validate : Doc → Bool)
        (bsResult selResult : Option Doc × Option String)
        (c : ScrapedMetadata) (meth : String) (err : Option String),
        ScraperManager.scrape_article enabled validate bsResult selResult
          = (some c, meth, err) → c.is_valid = true := by
  constructor
  · intro m
    cases ht : m.title with
    | none => simp [ScrapedMetadata.is_valid, pyTruthy, ht]
    | some s => simp [ScrapedMetadata.is_valid, pyTruthy, ht]
  · intro enabled validate bsResult selResult c meth err h
    have h2 : (if (ScraperManager.try_beautifulsoup validate bsResult).1.isNone && enabled
        then ScraperManager.try_selenium enabled selResult
        else ScraperManager.try_beautifulsoup validate bsResult)
        = (some c, meth, err) := h
    by_cases hcond : ((ScraperManager.try_beautifulsoup validate bsResult).1.isNone && enabled) = true
    · rw [if_pos hcond] at h2
      exact try_selenium_success_is_valid enabled selResult c meth err h2
    · rw [if_neg hcond] at h2
      exact try_beautifulsoup_success_is_valid validate bsResult c meth err h2

/-- Witness for claim C7: the record extracted from the Example
document comes out of a successful scrape, so it is valid. -/
theorem claim_C7_is_valid_untrimmed_witness :
    metaExample.is_valid = true :=
  claim_C7_is_valid_untrimmed.2 true (ScraperInterface.validate_soup ["title"])
    (some docExample, none) (none, none) metaExample "beautifulsoup" none rfl

/-! ## Claim C6 -/

/-- Claim C6 counterexample: running the scenario through the code, the
cycle's own dequeue (pop with no lane) raises AttributeError before any
item can be processed, and when the popped payload is handed to
_process_article directly, the one stored document carries
scraping_method beautifulsoup — not the claimed static. -/
theorem claim_C6_counterexample :
    Consumer.consume_and_process {} ctxExample { high := [wExample] } [] heap0
      = Except.error (PyErr.attributeError "NoneType object has no attribute lower")
    ∧ (Consumer.process_article ctxExample [] heap0 wExample).1.map
        (fun d => d.technical_metadata.scraping_method) = [some "beautifulsoup"]
    ∧ (some "beautifulsoup" : Option String) ≠ some "static" := by
  exact ⟨rfl, rfl, by decide⟩

/-- Claim C6 as amended: handing the scenario's work item to
Consumer._process_article (the cycle's no-lane dequeue itself raises,
so the item cannot arrive through it), with the static fetch returning
the document titled Example, stores exactly one Article: status
success, scraping_method beautifulsoup (the code's tag for the static
fetcher), scraped title Example. -/
theorem claim_C6_one_cycle_stores_success :
    (Consumer.process_article ctxExample [] heap0 wExample).1
      = [{ id := "a1"
           url := "https://example.com"
           source := "seed"
           category := "news"
           priority := "high"
           scraped_metadata := some metaExample
           technical_metadata :=
             { url_hash := ""
               scraped_date := some "2026-10-12T00:00:00"
               scraping_method := some "beautifulsoup"
               status := "success"
               error_message := none
               processing_time := some 1
               retry_count := 0 } }]
    ∧ metaExample.title = some "Example" := by
  exact ⟨rfl, rfl⟩

/-! ## Claim C9 -/

/-- Claim C9: an unexpected exception while processing one dequeued
item is absorbed by the per-item handler (the stats record one more
failure and nothing propagates), the batch loop steps past the bad item
to the rest of the queue, and a whole batch run never surfaces an
exception, whatever the queue holds. -/
theorem claim_C9_bad_item_never_halts_batch :
    (∀ (s : Consumer.Stats) (e : PyErr),
        Consumer.process_article_guarded s (.raises e)
          = { s with failed := s.failed + 1 })
    ∧ (∀ (n : Nat) (e : PyErr) (q : List Consumer.ItemOutcome)
        (s : Consumer.Stats) (p : Bool),
        Consumer.run_batch (n + 1) (.raises e :: q) s p
          = Consumer.run_batch n q { s with failed := s.failed + 1 } true)
    ∧ ∀ (n : Nat) (q : List Consumer.ItemOutcome) (s : Consumer.Stats) (p : Bool),
        ∃ r, Consumer.run_batch n q s p = Except.ok r := by
  refine ⟨fun s e => rfl, fun n e q s p => rfl, ?_⟩
  intro n
  induction n with
  | zero => exact fun q s p => ⟨(s, q, p), rfl⟩
  | succ n ih =>
    intro q s p
    cases q with
    | nil => exact ⟨(s, [], p), rfl⟩
    | cons o rest =>
      simpa [Consumer.run_batch] using ih rest (Consumer.process_article_guarded s o) true

/-! ## Claim C8 -/

/-- Bind on an ok value reduces to the continuation. -/
theorem ok_bind {α β : Type} (a : α) (f : α → Except PyErr β) :
    (Except.ok a : Except PyErr α) >>= f = f a := rfl

/-- The guarded meta lookup never raises. -/
theorem get_meta_content_ok (d : Doc) (k : String) :
    ∃ v, MetadataExtractor.get_meta_content d k = Except.ok v := by
  unfold MetadataExtractor.get_meta_content
  cases d.findMeta k with
  | none => exact ⟨none, rfl⟩
  | some content =>
    cases content with
    | none => exact ⟨none, rfl⟩
    | some s =>
      dsimp only
      by_cases hs : s = ""
      · subst hs
        exact ⟨none, rfl⟩
      · have hp : pyTruthy (some s) = true := by simp [pyTruthy, hs]
        refine ⟨some s.trim, ?_⟩
        rw [if_pos hp]
        rfl

/-- The first-of-names meta lookup never raises. -/
theorem get_first_meta_content_ok (d : Doc) (names : List String) :
    ∃ v, MetadataExtractor.get_first_meta_content d names = Except.ok v := by
  induction names with
  | nil => exact ⟨none, rfl⟩
  | cons n ns ih =>
    obtain ⟨v, hv⟩ := get_meta_content_ok d n
    obtain ⟨w, hw⟩ := ih
    unfold MetadataExtractor.get_first_meta_content
    simp only [hv, ok_bind]
    by_cases hp : pyTruthy v = true
    · rw [if_pos hp]
      exact ⟨v, rfl⟩
    · rw [if_neg hp]
      exact ⟨w, hw⟩

/-- The guarded time-datetime lookup never raises. -/
theorem get_time_datetime_ok (d : Doc) :
    ∃ v, MetadataExtractor.get_time_datetime d = Except.ok v := by
  unfold MetadataExtractor.get_time_datetime
  cases d.timeDatetime with
  | none => exact ⟨none, rfl⟩
  | some v =>
    dsimp only
    by_cases hv : v = ""
    · subst hv
      exact ⟨none, rfl⟩
    · have hp : pyTruthy (some v) = true := by simp [pyTruthy, hv]
      refine ⟨some v.trim, ?_⟩
      rw [if_pos hp]
      rfl

/-- The guarded link-href lookup never raises. -/
theorem get_link_href_ok (d : Doc) (rel : String) :
    ∃ v, MetadataExtractor.get_link_href d rel = Except.ok v := by
  unfold MetadataExtractor.get_link_href
  cases d.findLink rel with
  | none => exact ⟨none, rfl⟩
  | some href =>
    cases href with
    | none => exact ⟨none, rfl⟩
    | some s =>
      dsimp only
      by_cases hs : s = ""
      · subst hs
        exact ⟨none, rfl⟩
      · have hp : pyTruthy (some s) = true := by simp [pyTruthy, hs]
        refine ⟨some s.trim, ?_⟩
        rw [if_pos hp]
        rfl

/-- Title extraction never raises. -/
theorem extract_title_ok (d : Doc) :
    ∃ v, MetadataExtractor.extract_title d = Except.ok v := by
  obtain ⟨w, hw⟩ := get_first_meta_content_ok d ["og:title", "twitter:title"]
  unfold MetadataExtractor.extract_title
  by_cases hp : pyTruthy (MetadataExtractor.get_title_text d) = true
  · rw [if_pos hp]
    exact ⟨MetadataExtractor.get_title_text d, rfl⟩
  · rw [if_neg hp]
    exact ⟨w, hw⟩

/-- Description extraction never raises. -/
theorem extract_description_ok (d : Doc) :
    ∃ v, MetadataExtractor.extract_description d = Except.ok v :=
  get_first_meta_content_ok d ["description", "og:description", "twitter:description"]

/-- Keywords extraction never raises and an absent value yields []. -/
theorem extract_keywords_ok (d : Doc) :
    ∃ v, MetadataExtractor.extract_keywords d = Except.ok v := by
  obtain ⟨v, hv⟩ := get_meta_content_ok d "keywords"
  unfold MetadataExtractor.extract_keywords
  simp only [hv, ok_bind]
  cases v with
  | none => exact ⟨[], rfl⟩
  | some s =>
    dsimp only
    by_cases hs : s = ""
    · subst hs
      exact ⟨[], rfl⟩
    · exact ⟨(s.splitOn ",").map String.trim, by rw [if_neg hs]; rfl⟩

/-- Author extraction never raises. -/
theorem extract_author_ok (d : Doc) :
    ∃ v, MetadataExtractor.extract_author d = Except.ok v := by
  obtain ⟨a, ha⟩ := get_meta_content_ok d "author"
  obtain ⟨b, hb⟩ := get_meta_content_ok d "article:author"
  unfold MetadataExtractor.extract_author
  simp only [ha, ok_bind]
  by_cases hpa : pyTruthy a = true
  · rw [if_pos hpa]
    exact ⟨a, rfl⟩
  · rw [if_neg hpa]
    simp only [hb, ok_bind]
    by_cases hpb : pyTruthy b = true
    · rw [if_pos hpb]
      exact ⟨b, rfl⟩
    · rw [if_neg hpb]
      exact ⟨MetadataExtractor.get_author_link_text d, rfl⟩

/-- Publisher extraction never raises. -/
theorem extract_publisher_ok (d : Doc) :
    ∃ v, MetadataExtractor.extract_publisher d = Except.ok v :=
  get_first_meta_content_ok d ["article:publisher", "og:site_name", "twitter:site"]

/-- Publish-date extraction never raises. -/
theorem extract_publish_date_ok (d : Doc) :
    ∃ v, MetadataExtractor.extract_publish_date d = Except.ok v := by
  obtain ⟨a, ha⟩ :=
    get_first_meta_content_ok d ["article:published_time", "publish_date", "pubdate"]
  obtain ⟨b, hb⟩ := get_time_datetime_ok d
  unfold MetadataExtractor.extract_publish_date
  simp only [ha, ok_bind]
  by_cases hp : pyTruthy a = true
  · rw [if_pos hp]
    exact ⟨a, rfl⟩
  · rw [if_neg hp]
    exact ⟨b, hb⟩

/-- Modified-date extraction never raises. -/
theorem extract_modified_date_ok (d : Doc) :
    ∃ v, MetadataExtractor.extract_modified_date d = Except.ok v :=
  get_first_meta_content_ok d ["article:modified_time", "last-modified", "updated_time"]

/-- Image extraction never raises. -/
theorem extract_image_ok (d : Doc) :
    ∃ v, MetadataExtractor.extract_image d = Except.ok v := by
  obtain ⟨a, ha⟩ := get_first_meta_content_ok d ["og:image", "twitter:image", "image"]
  obtain ⟨b, hb⟩ := get_link_href_ok d "image_src"
  unfold MetadataExtractor.extract_image
  simp only [ha, ok_bind]
  by_cases hp : pyTruthy a = true
  · rw [if_pos hp]
    exact ⟨a, rfl⟩
  · rw [if_neg hp]
    exact ⟨b, hb⟩

/-- Canonical-url extraction never raises. -/
theorem extract_canonical_url_ok (d : Doc) :
    ∃ v, MetadataExtractor.extract_canonical_url d = Except.ok v := by
  obtain ⟨a, ha⟩ := get_link_href_ok d "canonical"
  obtain ⟨b, hb⟩ := get_meta_content_ok d "og:url"
  unfold MetadataExtractor.extract_canonical_url
  simp only [ha, ok_bind]
  by_cases hp : pyTruthy a = true
  · rw [if_pos hp]
    exact ⟨a, rfl⟩
  · rw [if_neg hp]
    exact ⟨b, hb⟩

/-- Claim C8: extraction always returns a metadata record — every field
lookup is guarded, so no document, however bare, makes it raise — and
on the document missing every optional element the result represents
absence as none for the string fields and the empty list for keywords. -/
theorem claim_C8_extract_never_raises :
    (∀ d : Doc, ∃ m : ScrapedMetadata, MetadataExtractor.extract d = Except.ok m)
    ∧ MetadataExtractor.extract emptyDoc
        = Except.ok
            { title := none
              description := none
              keywords := some []
              author := none
              published_date := none
              modified_date := none
              images := none
              canonical_url := none
              social_media := some {}
              site_name := none
              image := none } := by
  constructor
  · intro d
    obtain ⟨v1, h1⟩ := extract_title_ok d
    obtain ⟨v2, h2⟩ := extract_description_ok d
    obtain ⟨v3, h3⟩ := extract_keywords_ok d
    obtain ⟨v4, h4⟩ := extract_author_ok d
    obtain ⟨v5, h5⟩ := get_first_meta_content_ok d ["og:site_name"]
    obtain ⟨v6, h6⟩ := extract_publish_date_ok d
    obtain ⟨v7, h7⟩ := extract_modified_date_ok d
    obtain ⟨v8, h8⟩ := extract_image_ok d
    obtain ⟨v9, h9⟩ := extract_canonical_url_ok d
    obtain ⟨v10, h10⟩ := extract_publisher_ok d
    obtain ⟨v11, h11⟩ := get_meta_content_ok d "fb:pages"
    obtain ⟨v12, h12⟩ := get_meta_content_ok d "fb:app_id"
    obtain ⟨v13, h13⟩ := get_meta_content_ok d "twitter:site"
    obtain ⟨v14, h14⟩ := get_meta_content_ok d "twitter:creator"
    obtain ⟨v15, h15⟩ := get_meta_content_ok d "twitter:card"
    refine ⟨{ title := v1
              description := v2
              keywords := some v3
              author := v4
              published_date := v6
              modified_date := v7
              images := none
              canonical_url := v9
              social_media := some
                { facebook :=
                    { publisher := v10
                      page_id := v11
                      app_id := v12 }
                  twitter :=
                    { publisher := v13
                      creator := v14
                      card := v15 } }
              site_name := v5
              image := v8 }, ?_⟩
    unfold MetadataExtractor.extract
    simp only [h1, h2, h3, h4, h5, h6, h7, h8, h9, h10, h11, h12, h13, h14, h15,
      ok_bind]
    rfl
  · rfl
